import Mathlib

/-!
Verification of the pulp_deb synchronization pipeline
(`pulp_deb/app/tasks/synchronizing.py`) against its natural-language
specification.

The Python source is shallowly embedded: each function or stage that the
claims depend on is translated into an executable Lean definition, with
Python exceptions modelled by `Except PyError`.  External collaborators
(the downloader, gnupg verification, the paragraph serializer,
`Artifact.init_and_validate`) enter as oracle parameters, exactly at their
call interface.
-/

namespace PulpDeb

/-- Python exceptions that the embedded code can raise. -/
inductive PyError where
  | noReleaseFile (distribution : String)
  | noPackageIndexFile (relativeDir : String)
  | digestValidationError
  | clientResponseError (code : Nat)
  | validationError
  | attributeError (message : String)
  | unboundLocalError
  | nameError
  | indexError
  | otherException
deriving DecidableEq, Repr

/-! ### String helpers

The helpers below reimplement the python `str` operations used by the
source over character lists, by structural recursion, so that every
definition evaluates inside the kernel. -/

/-- Whether the first character list is a prefix of the second. -/
def isPrefChars : List Char → List Char → Bool
  | [], _ => true
  | _ :: _, [] => false
  | a :: as, b :: bs => a == b && isPrefChars as bs

/-- Embedding of python `str.startswith`. -/
def strStartsWith (s pre : String) : Bool :=
  isPrefChars pre.toList s.toList

/-- Embedding of python `str.endswith`. -/
def strEndsWith (s suf : String) : Bool :=
  isPrefChars suf.toList.reverse s.toList.reverse

/-- Split a character list at every character satisfying `p`, keeping
empty chunks (the behaviour of `str.split(sep)` for a one-character
separator, and of `String.split`). -/
def splitChars (p : Char → Bool) (acc : List Char) :
    List Char → List String
  | [] => [String.mk acc.reverse]
  | c :: rest =>
    if p c then String.mk acc.reverse :: splitChars p [] rest
    else splitChars p (c :: acc) rest

/-! ### Path helpers (`os.path`, posix semantics) -/

/-- Embedding of `os.path.basename`: the part of the path after the last
slash. -/
def basename (p : String) : String :=
  String.mk ((p.toList.reverse.takeWhile (fun c => c != '/')).reverse)

/-- Embedding of `os.path.dirname`: everything before the last slash, with
trailing slashes removed unless the result is entirely slashes. -/
def dirname (p : String) : String :=
  let head := (p.toList.reverse.dropWhile (fun c => c != '/')).reverse
  if head.isEmpty || head.all (fun c => c == '/') then String.mk head
  else String.mk ((head.reverse.dropWhile (fun c => c == '/')).reverse)

/-- Embedding of the extension part of `os.path.splitext`: the suffix of the
last path component starting at its last dot, where leading dots of the
component do not count. -/
def splitextExt (p : String) : String :=
  let b := (p.toList.reverse.takeWhile (fun c => c != '/')).reverse
  let rest := b.dropWhile (fun c => c == '.')
  if rest.any (fun c => c == '.') then
    String.mk ('.' :: (rest.reverse.takeWhile (fun c => c != '.')).reverse)
  else ""

/-- Embedding of python `str.strip("/")`: remove leading and trailing
slashes. -/
def stripSlashes (s : String) : String :=
  String.mk
    (((s.toList.dropWhile (fun c => c == '/')).reverse.dropWhile
        (fun c => c == '/')).reverse)

/-- Embedding of `os.path.join` for two components (posix semantics): a
second component that is absolute discards the first. -/
def osPathJoin (a b : String) : String :=
  if strStartsWith b "/" then b
  else if a == "" || strEndsWith a "/" then a ++ b
  else a ++ "/" ++ b

/-- Embedding of python `str.split()` with no argument: split on whitespace,
discarding empty tokens. -/
def pySplit (s : String) : List String :=
  (splitChars Char.isWhitespace [] s.toList).filter (fun t => t != "")

/-! ### The filter intersector `_filter_split` (lines 188-217) -/

/-- Embedding of python `sorted(set(xs))` for a list of strings: the
duplicate-free list in ascending order. -/
def sortedSet (xs : List String) : List String :=
  List.insertionSort (fun a b => a ≤ b) xs.dedup

/-- Embedding of `_filter_split` (the filter intersector).  The
`value_type` argument of the source only affects logging and is omitted.
An unset (`None`) filter on the remote behaves like the empty string: both
are falsy. -/
def filterSplit (values filterValues : String) : List String :=
  let valueList := pySplit values
  let filteredValues :=
    if filterValues == "" then valueList
    else
      let filterValueList := pySplit filterValues
      valueList.filter (fun v =>
        decide (v ∈ filterValueList) || decide (basename v ∈ filterValueList))
  sortedSet filteredValues

/-! ### Release file directory computation (lines 443-446) -/

/-- Embedding of the release-file-directory computation in
`DebFirstStage._handle_distribution`: `distribution.strip("/")` when the
name ends with a slash, `os.path.join("dists", distribution)` otherwise.
Indexing `distribution[-1]` on the empty string raises `IndexError`. -/
def releaseFileDir (distribution : String) : Except PyError String :=
  if distribution == "" then .error .indexError
  else if strEndsWith distribution "/" then .ok (stripSlashes distribution)
  else .ok (osPathJoin "dists" distribution)

/-! ### The failsafe artifact `DeclarativeFailsafeArtifact` (lines 125-152) -/

/-- Outcome of the base-class `DeclarativeArtifact.download`, as observed at
the call site inside `DeclarativeFailsafeArtifact.download`. -/
inductive DownloadOutcome where
  | success
  | clientResponseError (code : Nat)
  | digestValidationError
  | otherException
deriving DecidableEq, Repr

/-- Embedding of `DeclarativeFailsafeArtifact.download`: the result is the
new value of `self.artifact` (`none` when the candidate was dropped), or
the re-raised exception. -/
def failsafeDownload {α : Type} (outcome : DownloadOutcome)
    (artifact : Option α) : Except PyError (Option α) :=
  match outcome with
  | .success => .ok artifact
  | .clientResponseError code =>
      if code == 404 then .ok none else .error (.clientResponseError code)
  | .digestValidationError => .ok none
  | .otherException => .error .otherException

/-! ### Declarative artifacts and content units -/

/-- A declarative artifact as the attribute stages see it after download and
pruning: its relative path and the sha256 of its downloaded (or, for
package candidates, declared) artifact. -/
structure DArtifact where
  relative_path : String
  sha256 : String
deriving DecidableEq, Repr

/-! ### The release verifier `DebUpdateReleaseFileAttributes` (lines 220-315) -/

/-- The fields of a `ReleaseFile` content unit that the verifier stage
writes.  The codename, suite, components and architectures fields are
copied verbatim from the parsed release document by an external parser and
are not needed by the claims. -/
structure ReleaseFileContent where
  distribution : String
  relative_path : String := ""
  sha256 : String := ""
deriving DecidableEq, Repr

/-- The dictionary `da_names` of `DebUpdateReleaseFileAttributes.run`: maps
the basename of each artifact path to that artifact; for duplicate
basenames the later list entry wins, as in a python dict comprehension. -/
def daLookup (arts : List DArtifact) (name : String) : Option DArtifact :=
  (arts.filter (fun da => basename da.relative_path == name)).getLast?

/-- Embedding of `DebUpdateReleaseFileAttributes.run` for one ReleaseFile
unit.  `gpgkey` is the truthiness of `remote.gpgkey`; `verifyDetached sig
file` and `verifyClear file` are the gnupg verification oracles
(`gpg.verify_file`).  The result is the updated content together with the
surviving artifact list, or the raised exception.  The source line
`d_content.d_artifacts.delete(...)` calls a method python lists do not
have, hence the `attributeError` outcome on that branch. -/
def debUpdateReleaseFileRun (gpgkey : Bool)
    (verifyDetached : DArtifact → DArtifact → Bool)
    (verifyClear : DArtifact → Bool)
    (content : ReleaseFileContent) (dArtifacts : List DArtifact) :
    Except PyError (ReleaseFileContent × List DArtifact) :=
  let relA := daLookup dArtifacts "Release"
  let sigA := daLookup dArtifacts "Release.gpg"
  let inrA := daLookup dArtifacts "InRelease"
  let step1 : Except PyError (List DArtifact × Option DArtifact) :=
    match relA with
    | some rel =>
      match sigA with
      | some sig =>
        if gpgkey then
          if verifyDetached sig rel then .ok (dArtifacts, some rel)
          else .ok ((dArtifacts.erase rel).erase sig, none)
        else .ok (dArtifacts, some rel)
      | none =>
        if gpgkey then
          .error (.attributeError "list object has no attribute delete")
        else .ok (dArtifacts, some rel)
    | none =>
      match sigA with
      | some sig => .ok (dArtifacts.erase sig, none)
      | none => .ok (dArtifacts, none)
  match step1 with
  | .error e => .error e
  | .ok (arts1, chosen1) =>
    let step2 : List DArtifact × Option DArtifact :=
      match inrA with
      | some inr =>
        if gpgkey then
          if verifyClear inr then (arts1, some inr)
          else (arts1.erase inr, chosen1)
        else (arts1, some inr)
      | none => (arts1, chosen1)
    match step2 with
    | (arts2, chosen2) =>
      if arts2.isEmpty then .error (.noReleaseFile content.distribution)
      else
        match chosen2 with
        | none => .error .nameError
        | some a =>
          .ok ({ content with
                   relative_path := a.relative_path,
                   sha256 := a.sha256 },
               arts2)

/-! ### The decompression resolver `_uncompress_artifact` (lines 358-376) -/

/-- Embedding of `_uncompress_artifact`: scan the artifact list in its given
order, skip artifacts whose extension is not one of `.gz`, `.bz2`, `.xz`,
and decompress the first recognized one.  The decompressed bytes live in a
temporary file; the model returns the selected candidate, which determines
them.  When no artifact is suitable, `NoPackageIndexFile` is raised with
the directory. -/
def uncompressArtifact (dArtifacts : List DArtifact) (relativeDir : String) :
    Except PyError DArtifact :=
  match dArtifacts with
  | [] => .error (.noPackageIndexFile relativeDir)
  | da :: rest =>
    let ext := splitextExt da.relative_path
    if ext == ".gz" || ext == ".bz2" || ext == ".xz" then .ok da
    else uncompressArtifact rest relativeDir

/-! ### The package index materializer `DebUpdatePackageIndexAttributes`
(lines 318-355) -/

/-- The fields of a `PackageIndex` content unit used by the materializer:
its declared sha256 and the relative path of the uncompressed index. -/
structure PIContent where
  sha256 : String
  relative_path : String
deriving DecidableEq, Repr

/-- Outcome of the materializer for one unit: either the unit was
eliminated (content set to `None`, future resolved) or it is passed on
with its (possibly extended) artifact list. -/
inductive PIResult where
  | eliminated
  | updated (dArtifacts : List DArtifact)
deriving DecidableEq, Repr

/-- Embedding of `DebUpdatePackageIndexAttributes.run` for one PackageIndex
unit.  `decompressedSha da` is the sha256 that the external
`Artifact.init_and_validate` computes for the decompressed copy of
candidate `da`; per its interface it raises `DigestValidationError` when
that digest differs from the expected `content.sha256`, in which case the
new artifact is never appended to the unit's candidates. -/
def debUpdatePackageIndexRun (decompressedSha : DArtifact → String)
    (content : PIContent) (dArtifacts : List DArtifact) :
    Except PyError PIResult :=
  if dArtifacts.isEmpty then .ok .eliminated
  else if (dArtifacts.filter (fun da => da.sha256 == content.sha256)).isEmpty
  then
    let relativeDir := dirname content.relative_path
    match uncompressArtifact dArtifacts relativeDir with
    | .error e => .error e
    | .ok chosen =>
      if decompressedSha chosen == content.sha256 then
        .ok (.updated (dArtifacts ++ [⟨content.relative_path, content.sha256⟩]))
      else .error .digestValidationError
  else .ok (.updated dArtifacts)

/-! ### Discovery stage handling of a resolved PackageIndex (lines 565-574) -/

/-- Result of the missing-index check at the top of the per-index
traversal in the discovery stage. -/
inductive IndexCheck where
  | skipped
  | proceed (idx : PIContent)
deriving DecidableEq, Repr

/-- Embedding of lines 565-574 of `DebFirstStage._handle_package_index`:
the reaction of the discovery stage to the resolution of a PackageIndex
unit.  A falsy resolution is skipped when
`remote.ignore_missing_package_indices` is set and otherwise raises
`NoPackageIndexFile` with the index directory. -/
def handleResolvedPackageIndex (ignoreMissingPackageIndices : Bool)
    (relativeDir : String) (resolution : Option PIContent) :
    Except PyError IndexCheck :=
  match resolution with
  | none =>
    if ignoreMissingPackageIndices then .ok .skipped
    else .error (.noPackageIndexFile relativeDir)
  | some idx => .ok (.proceed idx)

/-! ### The package paragraph loop of `_handle_package_index`
(lines 577-611) -/

/-- Embedding of `os.path.normpath` (posix semantics). -/
def normpath (path : String) : String :=
  if path == "" then "."
  else
    let initialSlashes : Nat :=
      if strStartsWith path "//" && !strStartsWith path "///" then 2
      else if strStartsWith path "/" then 1 else 0
    let comps := splitChars (fun c => c == '/') [] path.toList
    let newComps := comps.foldl (fun acc comp =>
      if comp == "" || comp == "." then acc
      else if comp != ".." || (initialSlashes == 0 && acc.isEmpty)
          || (!acc.isEmpty && acc.getLastD "" == "..") then acc ++ [comp]
      else if !acc.isEmpty then acc.dropLast
      else acc) []
    let joined := String.intercalate "/" newComps
    let res := String.mk (List.replicate initialSlashes '/') ++ joined
    if res == "" then "." else res

/-- The package class selected for a paragraph: `Package` for `.deb`
filenames, `InstallerPackage` for `.udeb` filenames. -/
inductive PackageKind where
  | deb
  | udeb
deriving DecidableEq, Repr

/-- One RFC822 package paragraph, restricted to the fields the loop reads
(a missing field makes the corresponding dict lookup raise `KeyError`),
together with the verdict of the external serializer's `is_valid` for it. -/
structure Paragraph where
  filename : Option String
  sha256 : Option String
  package : Option String
  valid : Bool
deriving DecidableEq, Repr

/-- A package content unit emitted by the paragraph loop. -/
structure EmittedPackage where
  relative_path : String
  sha256 : String
  kind : PackageKind
deriving DecidableEq, Repr

/-- Embedding of one iteration of the paragraph loop in
`DebFirstStage._handle_package_index` (lines 579-611).  `cls` is the
current binding of the python local `package_class`, which persists across
loop iterations; `serializer_class` is always bound together with it.  The
result is the new binding together with `some` emitted unit, or `none`
when the paragraph was skipped by the `except KeyError` handler; a
serializer validation failure and an unbound `package_class` raise
exceptions that the handler does not catch. -/
def processParagraph (cls : Option PackageKind) (p : Paragraph) :
    Except PyError (Option PackageKind × Option EmittedPackage) :=
  match p.filename with
  | none => .ok (cls, none)
  | some fn =>
    let relpath := normpath fn
    match p.sha256 with
    | none => .ok (cls, none)
    | some sha =>
      let cls1 := if strEndsWith relpath ".deb" then some PackageKind.deb
        else if strEndsWith relpath ".udeb" then some PackageKind.udeb
        else cls
      match p.package with
      | none => .ok (cls1, none)
      | some _ =>
        match cls1 with
        | none => .error .unboundLocalError
        | some k =>
          if p.valid then .ok (some k, some ⟨relpath, sha, k⟩)
          else .error .validationError

/-- Embedding of the full paragraph loop starting from a given binding of
`package_class`: thread the binding through the iterations and collect the
emitted package units, propagating any uncaught exception.  (Units emitted
before an uncaught exception are not recorded in the error case; the
claims only concern runs without uncaught exceptions and single-paragraph
failures.) -/
def iterParagraphsFrom (cls : Option PackageKind) :
    List Paragraph → Except PyError (List EmittedPackage)
  | [] => .ok []
  | p :: rest =>
    match processParagraph cls p with
    | .error e => .error e
    | .ok (cls1, none) => iterParagraphsFrom cls1 rest
    | .ok (cls1, some u) =>
      match iterParagraphsFrom cls1 rest with
      | .error e => .error e
      | .ok us => .ok (u :: us)

/-- Embedding of the paragraph loop of `_handle_package_index`:
`package_class` starts out unbound. -/
def iterParagraphs (ps : List Paragraph) : Except PyError (List EmittedPackage) :=
  iterParagraphsFrom none ps

/-! ## Theorems for the claims -/

/-- Claim C10: for every failsafe candidate-artifact download, exactly two
failure kinds are converted into an absent candidate (artifact set to
`none` and logged): an HTTP response with status 404, and a
digest-validation failure; every HTTP client response error with any other
status code is re-raised unchanged (and so is any other exception), while
a successful download leaves the artifact untouched. -/
theorem failsafe_download_spec :
    (∀ (α : Type) (a : Option α),
        failsafeDownload (DownloadOutcome.clientResponseError 404) a = .ok none)
  ∧ (∀ (α : Type) (a : Option α),
        failsafeDownload DownloadOutcome.digestValidationError a = .ok none)
  ∧ (∀ (α : Type) (a : Option α) (code : Nat), code ≠ 404 →
        failsafeDownload (DownloadOutcome.clientResponseError code) a
          = .error (.clientResponseError code))
  ∧ (∀ (α : Type) (a : Option α),
        failsafeDownload DownloadOutcome.success a = .ok a)
  ∧ (∀ (α : Type) (a : Option α),
        failsafeDownload DownloadOutcome.otherException a
          = .error .otherException) := by
  refine ⟨fun α a => rfl, fun α a => rfl, fun α a code h => ?_,
    fun α a => rfl, fun α a => rfl⟩
  simp only [failsafeDownload]
  rw [if_neg]
  simpa using h

/-- Claim C10 witness: a 500 client response error is re-raised. -/
theorem failsafe_download_spec_witness :
    failsafeDownload (DownloadOutcome.clientResponseError 500)
      (some (7 : Nat)) = .error (.clientResponseError 500) :=
  failsafe_download_spec.2.2.1 Nat (some 7) 500 (by decide)

/-- Claim C9 counterexample: the distribution name "/foo" does not end
with a path separator, yet the computed release-file directory is "/foo"
itself and not `dists//foo`, because `os.path.join` discards the first
component when the second is absolute. -/
theorem release_file_dir_counterexample :
    releaseFileDir "/foo" = .ok "/foo"
    ∧ strEndsWith "/foo" "/" = false
    ∧ ("/foo" : String) ≠ "dists/" ++ "/foo" := by
  refine ⟨rfl, rfl, by decide⟩

/-- Claim C9 (amended): for every nonempty distribution name, the computed
release-file directory equals the name with leading and trailing path
separators stripped when the name ends with a path separator, and equals
`dists/<name>` otherwise — except that a name beginning with a path
separator (and not ending with one) is returned unchanged, by path-join
semantics. -/
theorem release_file_dir_spec (d : String) (hne : d ≠ "") :
    (strEndsWith d "/" = true → releaseFileDir d = .ok (stripSlashes d))
  ∧ (strEndsWith d "/" = false → strStartsWith d "/" = false →
       releaseFileDir d = .ok ("dists/" ++ d))
  ∧ (strEndsWith d "/" = false → strStartsWith d "/" = true →
       releaseFileDir d = .ok d) := by
  have hbe : (d == "") = false := by simpa using hne
  have hj : ("dists" ++ "/" : String) = "dists/" := rfl
  refine ⟨fun h1 => ?_, fun h1 h2 => ?_, fun h1 h2 => ?_⟩
  · simp [releaseFileDir, hbe, h1]
  · simp only [releaseFileDir, osPathJoin, hbe, h1, h2, Bool.false_eq_true,
      if_false, String.append_assoc, hj]
    simp +decide
  · simp only [releaseFileDir, osPathJoin, hbe, h1, h2, Bool.false_eq_true,
      if_false, if_true]

/-- Claim C9 witness: a plain distribution name maps into `dists/`, and a
name ending in a separator is stripped. -/
theorem release_file_dir_spec_witness :
    releaseFileDir "jammy" = .ok ("dists/" ++ "jammy")
    ∧ releaseFileDir "flat/repo/" = .ok (stripSlashes "flat/repo/") :=
  ⟨(release_file_dir_spec "jammy" (by decide)).2.1 (by decide) (by decide),
   (release_file_dir_spec "flat/repo/" (by decide)).1 (by decide)⟩

/-- Claim C5: a PackageIndex unit that arrives at the materializer with
zero candidate artifacts is eliminated (content set to `None`, future
resolved) rather than raised on; in the discovery stage a falsy
PackageIndex resolution is skipped when `ignore_missing_package_indices`
is set and otherwise raises `NoPackageIndexFile` naming the index
directory, while a truthy resolution proceeds. -/
theorem package_index_elimination_spec :
    (∀ (decompressedSha : DArtifact → String) (content : PIContent),
        debUpdatePackageIndexRun decompressedSha content [] = .ok .eliminated)
  ∧ (∀ relativeDir,
        handleResolvedPackageIndex true relativeDir none = .ok .skipped)
  ∧ (∀ relativeDir,
        handleResolvedPackageIndex false relativeDir none
          = .error (.noPackageIndexFile relativeDir))
  ∧ (∀ b relativeDir idx,
        handleResolvedPackageIndex b relativeDir (some idx)
          = .ok (.proceed idx)) :=
  ⟨fun _ _ => rfl, fun _ => rfl, fun _ => rfl, fun _ _ _ => rfl⟩

/-- Claim C7: with a signing key configured, a lone `Release` candidate
without an accompanying `Release.gpg` reaches the source line
`d_content.d_artifacts.delete(...)`; python lists have no `delete` method,
so the stage raises `AttributeError` instead of dropping the candidate and
continuing. -/
theorem lone_release_with_key_attribute_error :
    debUpdateReleaseFileRun true (fun _ _ => true) (fun _ => true)
      ⟨"stable", "", ""⟩ [⟨"dists/stable/Release", "aa"⟩]
      = .error (.attributeError "list object has no attribute delete") := rfl

/-- Recognized compression extensions of `_uncompress_artifact`, and the
bridge between the source's boolean test and list membership. -/
theorem recognized_ext_iff (ext : String) :
    (ext == ".gz" || ext == ".bz2" || ext == ".xz") = true
      ↔ ext ∈ ([".gz", ".bz2", ".xz"] : List String) := by
  simp [or_assoc]

/-- Claim C3 counterexample: the decompression scan follows the candidate
list order, not a gzip-first priority — with an xz candidate listed before
a gz candidate, the xz one is selected, and with the opposite order the gz
one is. -/
theorem uncompress_priority_counterexample :
    uncompressArtifact
        [⟨"d/Packages.xz", "s1"⟩, ⟨"d/Packages.gz", "s2"⟩] "d"
      = .ok ⟨"d/Packages.xz", "s1"⟩
    ∧ uncompressArtifact
        [⟨"d/Packages.gz", "s2"⟩, ⟨"d/Packages.xz", "s1"⟩] "d"
      = .ok ⟨"d/Packages.gz", "s2"⟩ := ⟨rfl, rfl⟩

/-- Claim C3 (amended): decompression selection scans the candidates in
their list order (which the discovery stage fixes as Packages,
Packages.gz, Packages.xz, Release, so gzip is tried before xz there) and
selects the first candidate whose extension is one of `.gz`, `.bz2`,
`.xz`; the choice is a deterministic function of the candidate list, and
if no candidate has a recognized compression extension, the distinct
`NoPackageIndexFile` error naming the directory is raised. -/
theorem uncompress_spec :
    (∀ (pre post : List DArtifact) (a : DArtifact) (relativeDir : String),
        (∀ da ∈ pre,
          splitextExt da.relative_path ∉ ([".gz", ".bz2", ".xz"] : List String)) →
        splitextExt a.relative_path ∈ ([".gz", ".bz2", ".xz"] : List String) →
        uncompressArtifact (pre ++ a :: post) relativeDir = .ok a)
  ∧ (∀ (dArtifacts : List DArtifact) (relativeDir : String),
        (∀ da ∈ dArtifacts,
          splitextExt da.relative_path ∉ ([".gz", ".bz2", ".xz"] : List String)) →
        uncompressArtifact dArtifacts relativeDir
          = .error (.noPackageIndexFile relativeDir)) := by
  constructor
  · intro pre post a relativeDir hpre ha
    induction pre with
    | nil =>
      simp only [List.nil_append, uncompressArtifact]
      rw [if_pos ((recognized_ext_iff _).mpr ha)]
    | cons da rest ih =>
      simp only [List.cons_append, uncompressArtifact]
      rw [if_neg]
      · exact ih (fun x hx => hpre x (List.mem_cons_of_mem da hx))
      · intro hc
        exact hpre da (List.mem_cons_self da rest) ((recognized_ext_iff _).mp hc)
  · intro dArtifacts relativeDir h
    induction dArtifacts with
    | nil => rfl
    | cons da rest ih =>
      simp only [uncompressArtifact]
      rw [if_neg]
      · exact ih (fun x hx => h x (List.mem_cons_of_mem da hx))
      · intro hc
        exact h da (List.mem_cons_self da rest) ((recognized_ext_iff _).mp hc)

/-- Claim C3 witness: with an uncompressed `Packages` first (unrecognized
extension) and then a gz candidate, the gz candidate is selected; a list
with only unrecognized extensions raises the error with the directory. -/
theorem uncompress_spec_witness :
    uncompressArtifact
        [⟨"d/Packages", "s0"⟩, ⟨"d/Packages.gz", "s2"⟩, ⟨"d/Packages.xz", "s1"⟩]
        "d" = .ok ⟨"d/Packages.gz", "s2"⟩
    ∧ uncompressArtifact [⟨"d/Packages", "s0"⟩, ⟨"d/Release", "s3"⟩] "d"
      = .error (.noPackageIndexFile "d") :=
  ⟨uncompress_spec.1 [⟨"d/Packages", "s0"⟩] [⟨"d/Packages.xz", "s1"⟩]
      ⟨"d/Packages.gz", "s2"⟩ "d" (by decide) (by decide),
   uncompress_spec.2 [⟨"d/Packages", "s0"⟩, ⟨"d/Release", "s3"⟩] "d" (by decide)⟩

/-- Claim C4: for a PackageIndex unit whose uncompressed artifact must be
synthesized by decompression (no candidate already matches the declared
sha256), if the synthesized file's checksum differs from the index's
declared sha256 then the digest-validation error is raised, so the run
yields no updated candidate list and the artifact is not registered. -/
theorem synthesized_digest_mismatch_raises
    (decompressedSha : DArtifact → String) (content : PIContent)
    (dArtifacts : List DArtifact) (chosen : DArtifact)
    (hne : dArtifacts ≠ [])
    (hnomatch : ∀ da ∈ dArtifacts, da.sha256 ≠ content.sha256)
    (hchosen : uncompressArtifact dArtifacts (dirname content.relative_path)
        = .ok chosen)
    (hmismatch : decompressedSha chosen ≠ content.sha256) :
    debUpdatePackageIndexRun decompressedSha content dArtifacts
      = .error .digestValidationError := by
  have hfil : dArtifacts.filter (fun da => da.sha256 == content.sha256) = [] := by
    rw [List.filter_eq_nil_iff]
    intro da hda
    simpa using hnomatch da hda
  simp only [debUpdatePackageIndexRun, hfil, List.isEmpty_nil, hchosen]
  rw [if_neg (by simpa using hne), if_true, if_neg (by simpa using hmismatch)]

/-- Claim C4 witness: a lone gz candidate with a wrong declared digest and
a decompressed copy hashing to a third value raises the digest error. -/
theorem synthesized_digest_mismatch_raises_witness :
    debUpdatePackageIndexRun (fun _ => "cc")
      ⟨"hh", "dists/stable/main/binary-amd64/Packages"⟩
      [⟨"dists/stable/main/binary-amd64/Packages.gz", "gg"⟩]
      = .error .digestValidationError :=
  synthesized_digest_mismatch_raises (fun _ => "cc")
    ⟨"hh", "dists/stable/main/binary-amd64/Packages"⟩
    [⟨"dists/stable/main/binary-amd64/Packages.gz", "gg"⟩]
    ⟨"dists/stable/main/binary-amd64/Packages.gz", "gg"⟩
    (by decide) (by decide) rfl (by decide)

/-- Claim C6: with no signing key configured, for every ReleaseFile unit
whose candidate list holds both a `Release` and an `InRelease` entry under
the `da_names` basename dictionary — whatever else (such as `Release.gpg`)
is also present — the chosen authoritative representative, the artifact
whose sha256 and relative_path are recorded on the unit, is `InRelease`,
for any behaviour of the verification oracles (they are not consulted),
and the candidate list passes through unchanged. -/
theorem in_release_preferred_without_key
    (verifyDetached : DArtifact → DArtifact → Bool)
    (verifyClear : DArtifact → Bool) (content : ReleaseFileContent)
    (dArtifacts : List DArtifact) (rel inr : DArtifact)
    (hrel : daLookup dArtifacts "Release" = some rel)
    (hinr : daLookup dArtifacts "InRelease" = some inr) :
    debUpdateReleaseFileRun false verifyDetached verifyClear content
      dArtifacts
      = .ok ({ content with
                 relative_path := inr.relative_path,
                 sha256 := inr.sha256 }, dArtifacts) := by
  have hne : dArtifacts.isEmpty = false := by
    cases dArtifacts with
    | nil => simp [daLookup] at hinr
    | cons a l => rfl
  cases hsig : daLookup dArtifacts "Release.gpg" with
  | none => simp [debUpdateReleaseFileRun, hrel, hinr, hsig, hne]
  | some sig => simp [debUpdateReleaseFileRun, hrel, hinr, hsig, hne]

/-- Claim C6 witness: the representative of a unit holding all three of
`dists/stable/Release`, `dists/stable/InRelease` and
`dists/stable/Release.gpg` is `InRelease`. -/
theorem in_release_preferred_without_key_witness :
    debUpdateReleaseFileRun false (fun _ _ => false) (fun _ => false)
      ⟨"stable", "", ""⟩
      [⟨"dists/stable/Release", "aa"⟩, ⟨"dists/stable/InRelease", "bb"⟩,
       ⟨"dists/stable/Release.gpg", "cc"⟩]
      = .ok (⟨"stable", "dists/stable/InRelease", "bb"⟩,
             [⟨"dists/stable/Release", "aa"⟩, ⟨"dists/stable/InRelease", "bb"⟩,
              ⟨"dists/stable/Release.gpg", "cc"⟩]) :=
  in_release_preferred_without_key (fun _ _ => false) (fun _ => false)
    ⟨"stable", "", ""⟩
    [⟨"dists/stable/Release", "aa"⟩, ⟨"dists/stable/InRelease", "bb"⟩,
     ⟨"dists/stable/Release.gpg", "cc"⟩]
    ⟨"dists/stable/Release", "aa"⟩ ⟨"dists/stable/InRelease", "bb"⟩
    (by decide) (by decide)

/-- Claim C1 counterexample: with a signing key configured and all three
candidates present but neither the `Release`+`Release.gpg` pair nor
`InRelease` verifying, the stage raises `NoReleaseFile` — the unit does
not resolve to `None`, so the skip-on-`None` branch of the discovery stage
is never reached this way. -/
theorem all_candidates_fail_verification_counterexample :
    debUpdateReleaseFileRun true (fun _ _ => false) (fun _ => false)
      ⟨"stable", "", ""⟩
      [⟨"dists/stable/Release", "aa"⟩, ⟨"dists/stable/Release.gpg", "bb"⟩,
       ⟨"dists/stable/InRelease", "cc"⟩]
      = .error (.noReleaseFile "stable") := rfl

/-- Claim C1 (amended): for every ReleaseFile unit processed with a
signing key configured whose downloaded candidates are `Release`,
`Release.gpg` and `InRelease`, if the detached verification of the pair
fails and the clear-signed verification of `InRelease` fails, all
candidates are dropped and the stage raises the hard `NoReleaseFile`
failure for the distribution; the unit does not resolve to `None` and the
distribution is not silently skipped. -/
theorem all_candidates_fail_verification_raises
    (verifyDetached : DArtifact → DArtifact → Bool)
    (verifyClear : DArtifact → Bool) (content : ReleaseFileContent)
    (rel sig inr : DArtifact)
    (hrel : basename rel.relative_path = "Release")
    (hsig : basename sig.relative_path = "Release.gpg")
    (hinr : basename inr.relative_path = "InRelease")
    (hvd : verifyDetached sig rel = false)
    (hvc : verifyClear inr = false) :
    debUpdateReleaseFileRun true verifyDetached verifyClear content
      [rel, sig, inr] = .error (.noReleaseFile content.distribution) := by
  simp +decide [debUpdateReleaseFileRun, daLookup, List.filter, hrel, hsig,
    hinr, hvd, hvc, List.erase_cons_head]

/-- Claim C1 witness for the amended statement: concrete artifacts, both
verifications failing, yield the `NoReleaseFile` error. -/
theorem all_candidates_fail_verification_raises_witness :
    debUpdateReleaseFileRun true (fun _ _ => false) (fun _ => false)
      ⟨"buster", "", ""⟩
      [⟨"dists/buster/Release", "aa"⟩, ⟨"dists/buster/Release.gpg", "bb"⟩,
       ⟨"dists/buster/InRelease", "cc"⟩]
      = .error (.noReleaseFile "buster") :=
  all_candidates_fail_verification_raises (fun _ _ => false) (fun _ => false)
    ⟨"buster", "", ""⟩ ⟨"dists/buster/Release", "aa"⟩
    ⟨"dists/buster/Release.gpg", "bb"⟩ ⟨"dists/buster/InRelease", "cc"⟩
    (by decide) (by decide) (by decide) rfl rfl

/-- A paragraph with a required dict key missing: the lookup raises
`KeyError`, which the loop's `except KeyError` handler catches. -/
def missingRequiredField (p : Paragraph) : Bool :=
  p.filename.isNone || p.sha256.isNone || p.package.isNone

/-- A fully well-formed binary package paragraph: all read fields present,
a `.deb` filename after normalization, and accepted by the serializer. -/
def wellFormedDeb (p : Paragraph) : Bool :=
  match p.filename, p.sha256, p.package with
  | some fn, some _, some _ => strEndsWith (normpath fn) ".deb" && p.valid
  | _, _, _ => false

/-- The package unit a paragraph with all fields present is emitted as
(`none` for a paragraph with a missing field, which is skipped). -/
def expectedEmit (p : Paragraph) : Option EmittedPackage :=
  match p.filename, p.sha256, p.package with
  | some fn, some sha, some _ => some ⟨normpath fn, sha, PackageKind.deb⟩
  | _, _, _ => none

/-- Claim C2 counterexample: a paragraph whose required fields are all
present but which fails serializer validation raises an uncaught
`ValidationError` — `serializer.is_valid(raise_exception=True)` is inside
the `try` block but only `KeyError` is caught — aborting the sync instead
of being logged and skipped. -/
theorem invalid_paragraph_aborts :
    iterParagraphs [⟨some "pool/a.deb", some "ss", some "a", false⟩]
      = .error .validationError := rfl

/-- Claim C2 (amended): a package paragraph missing a required field
(`Filename`, `sha256` or `Package`) raises `KeyError`, which is caught:
the paragraph is logged and skipped and all other paragraphs of the index
are still processed; but a paragraph whose present fields fail serializer
validation raises an exception that is not caught and aborts the sync.
For an index whose paragraphs each either miss a required field or are
fully well-formed `.deb` paragraphs, the loop succeeds and emits exactly
the units of the well-formed paragraphs, in order. -/
theorem paragraph_loop_spec (ps : List Paragraph)
    (h : ∀ p ∈ ps, missingRequiredField p = true ∨ wellFormedDeb p = true) :
    iterParagraphs ps = .ok (ps.filterMap expectedEmit) := by
  suffices hgen : ∀ (ps : List Paragraph) (cls : Option PackageKind),
      (∀ p ∈ ps, missingRequiredField p = true ∨ wellFormedDeb p = true) →
      iterParagraphsFrom cls ps = .ok (ps.filterMap expectedEmit) from
    hgen ps none h
  intro ps
  induction ps with
  | nil => intro cls _; rfl
  | cons p rest ih =>
    intro cls hps
    have hp := hps p (List.mem_cons_self p rest)
    have hrest := fun q hq => hps q (List.mem_cons_of_mem p hq)
    obtain ⟨fn, sha, pkg, val⟩ := p
    rcases fn with _ | fn
    · simp only [iterParagraphsFrom, processParagraph, List.filterMap_cons,
        expectedEmit]
      exact ih cls hrest
    rcases sha with _ | sha
    · simp only [iterParagraphsFrom, processParagraph, List.filterMap_cons,
        expectedEmit]
      exact ih cls hrest
    rcases pkg with _ | pkg
    · simp only [iterParagraphsFrom, processParagraph, List.filterMap_cons,
        expectedEmit]
      exact ih _ hrest
    · have hwf : wellFormedDeb ⟨some fn, some sha, some pkg, val⟩ = true := by
        rcases hp with hmiss | hwf
        · simp [missingRequiredField] at hmiss
        · exact hwf
      simp only [wellFormedDeb, Bool.and_eq_true] at hwf
      obtain ⟨hends, hval⟩ := hwf
      simp only [iterParagraphsFrom, processParagraph, hends, hval, if_true,
        List.filterMap_cons, expectedEmit, ih _ hrest]

/-- Claim C2 witness: an index with two well-formed paragraphs and two
paragraphs with missing fields (no `Filename`; no `sha256`) yields exactly
the two well-formed units, in order, without an exception. -/
theorem paragraph_loop_spec_witness :
    iterParagraphs
      [⟨some "pool/main/a.deb", some "s1", some "a", true⟩,
       ⟨none, some "s2", some "b", true⟩,
       ⟨some "pool/main/c.deb", none, some "c", true⟩,
       ⟨some "pool/main/d.deb", some "s4", some "d", true⟩]
      = .ok [⟨"pool/main/a.deb", "s1", PackageKind.deb⟩,
             ⟨"pool/main/d.deb", "s4", PackageKind.deb⟩] :=
  (paragraph_loop_spec
      [⟨some "pool/main/a.deb", some "s1", some "a", true⟩,
       ⟨none, some "s2", some "b", true⟩,
       ⟨some "pool/main/c.deb", none, some "c", true⟩,
       ⟨some "pool/main/d.deb", some "s4", some "d", true⟩]
      (by decide)).trans rfl

/-- The canonical form `sorted(set(xs))` is sorted. -/
theorem sortedSet_sorted (xs : List String) :
    (sortedSet xs).Sorted (fun a b => a ≤ b) :=
  List.sorted_insertionSort _ _

/-- The canonical form `sorted(set(xs))` has no duplicates. -/
theorem sortedSet_nodup (xs : List String) : (sortedSet xs).Nodup :=
  ((List.perm_insertionSort _ _).nodup_iff).mpr (List.nodup_dedup xs)

/-- The canonical form `sorted(set(xs))` only depends on `xs` up to
permutation. -/
theorem sortedSet_perm {xs ys : List String} (h : xs.Perm ys) :
    sortedSet xs = sortedSet ys :=
  List.eq_of_perm_of_sorted
    ((List.perm_insertionSort _ _).trans (h.dedup.trans
      (List.perm_insertionSort _ _).symm))
    (sortedSet_sorted xs) (sortedSet_sorted ys)

/-- Membership in `sorted(set(xs))` is membership in `xs`. -/
theorem sortedSet_mem (xs : List String) (x : String) :
    x ∈ sortedSet xs ↔ x ∈ xs := by
  unfold sortedSet
  rw [(List.perm_insertionSort _ _).mem_iff, List.mem_dedup]

/-- Claim C8: the filter intersection returns a sorted, duplicate-free
list; its output is invariant under reordering of the whitespace-delimited
tokens of the values string, and of a nonempty filter string; with the
empty filter it returns exactly the values, sorted and deduplicated; and a
value carrying a path prefix is matched by a filter token equal to its
basename and is returned in its prefixed form. -/
theorem filter_split_spec :
    (∀ values filterValues,
        (filterSplit values filterValues).Sorted (fun a b => a ≤ b)
        ∧ (filterSplit values filterValues).Nodup)
  ∧ (∀ v1 v2 f, (pySplit v1).Perm (pySplit v2) →
        filterSplit v1 f = filterSplit v2 f)
  ∧ (∀ v f1 f2, f1 ≠ "" → f2 ≠ "" → (pySplit f1).Perm (pySplit f2) →
        filterSplit v f1 = filterSplit v f2)
  ∧ (∀ v x, x ∈ filterSplit v "" ↔ x ∈ pySplit v)
  ∧ (∀ values f v, v ∈ pySplit values → basename v ∈ pySplit f →
        v ∈ filterSplit values f) := by
  refine ⟨fun values filterValues => ⟨sortedSet_sorted _, sortedSet_nodup _⟩,
    fun v1 v2 f h => ?_, fun v f1 f2 h1 h2 hp => ?_, fun v x => ?_,
    fun values f v hv hb => ?_⟩
  · unfold filterSplit
    cases hf : (f == "") with
    | true => simp only [hf, if_true]; exact sortedSet_perm h
    | false =>
      simp only [hf, Bool.false_eq_true, if_false]
      exact sortedSet_perm (h.filter _)
  · have hf1 : (f1 == "") = false := by simpa using h1
    have hf2 : (f2 == "") = false := by simpa using h2
    unfold filterSplit
    simp only [hf1, hf2, Bool.false_eq_true, if_false]
    refine congrArg sortedSet (List.filter_congr fun x _ => ?_)
    rw [decide_eq_decide.mpr hp.mem_iff, decide_eq_decide.mpr hp.mem_iff]
  · rw [show filterSplit v "" = sortedSet (pySplit v) from rfl]
    exact sortedSet_mem _ x
  · have hne : f ≠ "" := by
      intro heq
      rw [heq] at hb
      exact absurd hb (List.not_mem_nil _)
    have hfb : (f == "") = false := by simpa using hne
    unfold filterSplit
    simp only [hfb, Bool.false_eq_true, if_false]
    exact (sortedSet_mem _ _).mpr
      (List.mem_filter.mpr ⟨hv, by simp [hb]⟩)

/-- Claim C8 witness: the path-prefixed value `updates/main` is matched by
the filter token `main` and returned in prefixed form, and reordering the
values tokens does not change the output. -/
theorem filter_split_spec_witness :
    ("updates/main" ∈ filterSplit "updates/main stable" "main")
    ∧ filterSplit "arm64 amd64" "" = filterSplit "amd64 arm64" "" :=
  ⟨filter_split_spec.2.2.2.2 "updates/main stable" "main" "updates/main"
      (by decide) (by decide),
   filter_split_spec.2.1 "arm64 amd64" "amd64 arm64" "" (by decide)⟩

end PulpDeb
